import Mathlib

/-!
Verification of the feature-resolution and test-gating logic of the
cloudroast object-storage fixture (`cloudroast/objectstorage/fixtures.py`)
and of the image-update positive test scenarios
(`cloudroast/images/v2/functional/test_update_image_positive.py`).

The Python code is shallowly embedded: each Python function becomes an
executable Lean definition over explicit inputs (the configuration object,
the outcome of the one external fetch, the abstract image-service client).
-/

namespace Cloudroast

/-- Python's `str.split()` with no arguments: split on runs of whitespace
and drop empty pieces. -/
def pySplit (s : String) : List String :=
  ((s.toList.splitOnP (fun c => c.isWhitespace)).filter (fun t => t ≠ [])).map
    (fun l => String.mk l)

/-- `SwiftInfoError` from `fixtures.py` (line 67): the dedicated error type
wrapping the message of the underlying failure of feature discovery. -/
structure SwiftInfoError where
  message : String
deriving DecidableEq, Repr

/-- The inputs `ObjectStorageFixture.get_features` reads: the fields of
`ObjectStorageAPIConfig` it consults (`features`, `excluded_features`,
`use_swift_info` and the two sentinel constants `ALL_FEATURES` and
`NO_FEATURES`), together with the outcome of the external call
`behaviors.get_swift_features()` (`Except.error m` modelling a raised
exception with message `m`). -/
structure ApiConfig where
  ALL_FEATURES : String
  NO_FEATURES : String
  features : String
  excluded_features : String
  use_swift_info : Bool
  swift_fetch : Except String String
deriving Repr

/-- Result of the inner helper `split_features` (`fixtures.py` lines
110-113): the sentinel `ALL_FEATURES` is returned unchanged, any other
string is whitespace-split into a token list. -/
inductive SplitResult where
  | sentinel : SplitResult
  | toks (l : List String) : SplitResult
deriving DecidableEq, Repr

/-- `split_features` (`fixtures.py` lines 110-113). -/
def split_features (cfg : ApiConfig) (s : String) : SplitResult :=
  if s = cfg.ALL_FEATURES then SplitResult.sentinel else SplitResult.toks (pySplit s)

/-- The `reported_features` list (`fixtures.py` lines 105-108): empty
unless `use_swift_info` is set, in which case it is the whitespace-split
server-reported feature string.  Only meaningful when the fetch did not
fail (`get_features` raises first otherwise). -/
def reportedTokens (cfg : ApiConfig) : List String :=
  if cfg.use_swift_info then
    match cfg.swift_fetch with
    | Except.ok s => pySplit s
    | Except.error _ => []
  else []

/-- The union `list(set(reported_features) | set(features))`
(`fixtures.py` line 123), modelled as deduplicated concatenation (Python's
`set` fixes no order; every claim below is order-insensitive). -/
def unionTokens (reported configured : List String) : List String :=
  (reported ++ configured).dedup

/-- One step of the exclusion loop (`fixtures.py` lines 130-135):
`features.index(feature)` / `features.pop(index)` removes the first
occurrence, and a missing token (`ValueError`) is ignored. -/
def removeFirst : List String → String → List String
  | [], _ => []
  | y :: ys, x => if y = x then ys else y :: removeFirst ys x

/-- The whole exclusion loop (`fixtures.py` lines 130-135). -/
def removeFeatures (features : List String) (excluded : List String) : List String :=
  excluded.foldl removeFirst features

/-- The sentinel checks and set arithmetic of `get_features` after the
optional fetch succeeded (`fixtures.py` lines 110-137). -/
def get_features_main (cfg : ApiConfig) : String :=
  match split_features cfg cfg.features with
  | SplitResult.sentinel => cfg.ALL_FEATURES
  | SplitResult.toks ftoks =>
    let unioned := unionTokens (reportedTokens cfg) ftoks
    match split_features cfg cfg.excluded_features with
    | SplitResult.sentinel => cfg.NO_FEATURES
    | SplitResult.toks etoks => String.intercalate " " (removeFeatures unioned etoks)

/-- `ObjectStorageFixture.get_features` (`fixtures.py` lines 76-137).
If `use_swift_info` is set and the fetch of server-reported features
fails, the failure is re-raised as `SwiftInfoError` before anything else;
otherwise the resolution is pure. -/
def get_features (cfg : ApiConfig) : Except SwiftInfoError String :=
  if cfg.use_swift_info then
    match cfg.swift_fetch with
    | Except.error msg => Except.error ⟨msg⟩
    | Except.ok _ => Except.ok (get_features_main cfg)
  else Except.ok (get_features_main cfg)

/-- `fetchOk cfg` iff `get_features` does not raise: either the server is
not consulted or the fetch succeeded. -/
def fetchOk (cfg : ApiConfig) : Bool :=
  !cfg.use_swift_info ||
    (match cfg.swift_fetch with
     | Except.ok _ => true
     | Except.error _ => false)

/-- The value of the decorator `required_features` returns
(`fixtures.py` lines 160-177): `run` models `lambda func: func`, `skip r`
models `unittest.skip(r)`. -/
inductive GateDecision where
  | run
  | skip (reason : String)
deriving DecidableEq, Repr

/-- `ObjectStorageFixture.required_features` (`fixtures.py` lines
139-177), taking the resolved feature string (the value `get_features`
returned) and the variadic required tokens. -/
def required_features (cfg : ApiConfig) (features : String)
    (required : List String) : GateDecision :=
  if features = cfg.ALL_FEATURES then GateDecision.run
  else if features = cfg.NO_FEATURES then GateDecision.skip "skipping all features"
  else
    let ftoks := pySplit features
    if required.any (fun req => decide (req ∉ ftoks)) then
      GateDecision.skip ("requires features: " ++ String.intercalate ", " required)
    else GateDecision.run

/-- The required tokens absent from the resolved token list (what the
spec calls "the missing tokens"). -/
def missingTokens (ftoks : List String) (required : List String) : List String :=
  required.filter (fun req => decide (req ∉ ftoks))

/-- Number of calls to `behaviors.get_swift_features()` one (uncached)
evaluation of `get_features` performs (`fixtures.py` lines 105-108). -/
def fetchCount (cfg : ApiConfig) : Nat :=
  if cfg.use_swift_info then 1 else 0

/-- Cache state of the memoized class method: the stored result, if any,
and a counter of server fetches performed so far. -/
structure MemoState where
  cache : Option (Except SwiftInfoError String)
  fetch_count : Nat
deriving Repr

/-- Modelled from the spec: the `@memoized` decorator applied to
`get_features` (`fixtures.py` line 77) lives in the external `cafe`
library, not in this repository.  Per the spec's memoization contract
("the resolved feature set, once computed for a test class, is stable for
that class's lifetime") it is modelled as a write-once cache: a hit
returns the stored value with no recomputation (in particular no fetch);
a miss evaluates `get_features` once, counting its `fetchCount` server
fetches, and stores the result. -/
def get_features_memo (cfg : ApiConfig) (st : MemoState) :
    Except SwiftInfoError String × MemoState :=
  match st.cache with
  | some v => (v, st)
  | none =>
    let v := get_features cfg
    (v, { cache := some v, fetch_count := st.fetch_count + fetchCount cfg })

/-- A response of the external images client's `update_image`: the HTTP
status code and the `entity.additional_properties` mapping. -/
structure ImageResponse where
  status_code : Nat
  additional_properties : List (String × String)

/-- The patch vocabulary of `update_image`: keyword argument `add`,
`remove` or `replace`, each carrying a property mapping. -/
inductive UpdateOp where
  | add (props : List (String × String))
  | remove (props : List (String × String))
  | replace (props : List (String × String))
deriving DecidableEq, Repr

/-- The external collaborators the image-update test uses as a black box:
the id of the image `create_new_image` returns and the client's
`update_image` call. -/
structure ImagesEnv where
  created_image_id : String
  update_image : String → UpdateOp → ImageResponse

/-- `TestUpdateImagePositive.test_update_image_remove_additional_property`
(`test_update_image_positive.py` lines 48-71): create an image, update it
adding property `user_prop`, assert status 200, update it removing
`user_prop`, assert status 200, assert `user_prop` absent from the final
entity's `additional_properties`.  Returns the list of `update_image`
calls issued (a failed assertion aborts the script) and whether every
assertion passed. -/
def test_update_image_remove_additional_property (env : ImagesEnv)
    (new_prop_value : String) : List (String × UpdateOp) × Bool :=
  let new_prop := "user_prop"
  let image_id := env.created_image_id
  let r1 := env.update_image image_id (UpdateOp.add [(new_prop, new_prop_value)])
  let calls1 := [(image_id, UpdateOp.add [(new_prop, new_prop_value)])]
  if r1.status_code = 200 then
    let r2 := env.update_image image_id (UpdateOp.remove [(new_prop, new_prop_value)])
    let calls2 := calls1 ++ [(image_id, UpdateOp.remove [(new_prop, new_prop_value)])]
    if r2.status_code = 200 then
      (calls2, decide (new_prop ∉ r2.additional_properties.map Prod.fst))
    else (calls2, false)
  else (calls1, false)

/-- Concrete configuration used by witnesses: ordinary token lists, no
sentinel, server reporting enabled with a successful fetch.  The sentinel
strings are those of `ObjectStorageAPIConfig` in the external cloudcafe
library. -/
def cfgScenario : ApiConfig :=
  { ALL_FEATURES := "__ALL__", NO_FEATURES := "__NONE__",
    features := "a b", excluded_features := "c",
    use_swift_info := true, swift_fetch := Except.ok "b c" }

/-- Concrete configuration with both `features` and `excluded_features`
set to the `ALL_FEATURES` sentinel. -/
def cfgBothAll : ApiConfig :=
  { ALL_FEATURES := "__ALL__", NO_FEATURES := "__NONE__",
    features := "__ALL__", excluded_features := "__ALL__",
    use_swift_info := false, swift_fetch := Except.ok "" }

/-- Concrete configuration with `excluded_features = ALL_FEATURES` and a
non-sentinel `features` value. -/
def cfgExcludeAll : ApiConfig :=
  { ALL_FEATURES := "__ALL__", NO_FEATURES := "__NONE__",
    features := "a b", excluded_features := "__ALL__",
    use_swift_info := true, swift_fetch := Except.ok "c d" }

/-- Concrete configuration whose server fetch fails. -/
def cfgFetchFails : ApiConfig :=
  { ALL_FEATURES := "__ALL__", NO_FEATURES := "__NONE__",
    features := "a b", excluded_features := "",
    use_swift_info := true, swift_fetch := Except.error "boom" }

/-- Concrete configuration with `features = ALL_FEATURES` and server
reporting enabled. -/
def cfgFeaturesAll : ApiConfig :=
  { ALL_FEATURES := "__ALL__", NO_FEATURES := "__NONE__",
    features := "__ALL__", excluded_features := "x y",
    use_swift_info := true, swift_fetch := Except.ok "c d" }

/-- Concrete configuration excluding a token (`"z"`) that no feature list
contains, next to `cfgScenario`'s exclusion of `"c"`. -/
def cfgExtraExclusion : ApiConfig :=
  { cfgScenario with excluded_features := "c z" }

theorem removeFirst_sublist (l : List String) (x : String) :
    List.Sublist (removeFirst l x) l := by
  induction l with
  | nil => exact List.Sublist.refl []
  | cons y ys ih =>
    simp only [removeFirst]
    split
    · exact List.sublist_cons_self y ys
    · exact ih.cons₂ y

theorem removeFirst_of_not_mem {l : List String} {x : String} (h : x ∉ l) :
    removeFirst l x = l := by
  induction l with
  | nil => rfl
  | cons y ys ih =>
    simp only [List.mem_cons, not_or] at h
    have hne : ¬ (y = x) := fun hyx => h.1 hyx.symm
    simp only [removeFirst, ih h.2, if_neg hne]

theorem not_mem_removeFirst {l : List String} {a : String} (x : String) (h : a ∉ l) :
    a ∉ removeFirst l x :=
  fun hmem => h ((removeFirst_sublist l x).subset hmem)

theorem nodup_removeFirst {l : List String} (x : String) (h : l.Nodup) :
    (removeFirst l x).Nodup :=
  h.sublist (removeFirst_sublist l x)

theorem not_mem_removeFirst_self (x : String) :
    ∀ {l : List String}, l.Nodup → x ∉ removeFirst l x := by
  intro l
  induction l with
  | nil => intro _; simp [removeFirst]
  | cons y ys ih =>
    intro hl
    rw [List.nodup_cons] at hl
    simp only [removeFirst]
    split
    · next hyx => subst hyx; exact hl.1
    · next hyx =>
      simp only [List.mem_cons, not_or]
      exact ⟨fun hxy => hyx hxy.symm, ih hl.2⟩

theorem removeFeatures_cons (l : List String) (a : String) (ex : List String) :
    removeFeatures l (a :: ex) = removeFeatures (removeFirst l a) ex := rfl

theorem removeFeatures_sublist (ex : List String) :
    ∀ l : List String, List.Sublist (removeFeatures l ex) l := by
  induction ex with
  | nil => intro l; exact List.Sublist.refl l
  | cons a ex ih =>
    intro l
    exact (ih (removeFirst l a)).trans (removeFirst_sublist l a)

theorem not_mem_removeFeatures_of_not_mem {a : String} {l : List String}
    (ex : List String) (h : a ∉ l) : a ∉ removeFeatures l ex :=
  fun hmem => h ((removeFeatures_sublist ex l).subset hmem)

theorem nodup_removeFeatures (ex : List String) {l : List String} (h : l.Nodup) :
    (removeFeatures l ex).Nodup :=
  h.sublist (removeFeatures_sublist ex l)

theorem not_mem_removeFeatures {x : String} :
    ∀ (ex : List String) {l : List String}, l.Nodup → x ∈ ex →
      x ∉ removeFeatures l ex := by
  intro ex
  induction ex with
  | nil => intro l _ hx; simp at hx
  | cons a ex ih =>
    intro l hl hx
    rw [removeFeatures_cons]
    rcases List.mem_cons.mp hx with hxa | hxex
    · by_cases hrest : x ∈ ex
      · exact ih (nodup_removeFirst a hl) hrest
      · subst hxa
        exact not_mem_removeFeatures_of_not_mem ex (not_mem_removeFirst_self x hl)
    · exact ih (nodup_removeFirst a hl) hxex

theorem removeFeatures_not_mem_middle {x : String} :
    ∀ (ex1 : List String) (ex2 : List String) {l : List String}, x ∉ l →
      removeFeatures l (ex1 ++ x :: ex2) = removeFeatures l (ex1 ++ ex2) := by
  intro ex1
  induction ex1 with
  | nil =>
    intro ex2 l hx
    simp only [List.nil_append, removeFeatures_cons, removeFirst_of_not_mem hx]
  | cons a ex1 ih =>
    intro ex2 l hx
    simp only [List.cons_append, removeFeatures_cons]
    exact ih ex2 (not_mem_removeFirst a hx)

theorem get_features_main_features_all {cfg : ApiConfig}
    (hf : cfg.features = cfg.ALL_FEATURES) :
    get_features_main cfg = cfg.ALL_FEATURES := by
  simp [get_features_main, split_features, hf]

theorem get_features_main_excluded_all {cfg : ApiConfig}
    (hf : cfg.features ≠ cfg.ALL_FEATURES)
    (he : cfg.excluded_features = cfg.ALL_FEATURES) :
    get_features_main cfg = cfg.NO_FEATURES := by
  simp [get_features_main, split_features, hf, he]

theorem get_features_main_normal {cfg : ApiConfig}
    (hf : cfg.features ≠ cfg.ALL_FEATURES)
    (he : cfg.excluded_features ≠ cfg.ALL_FEATURES) :
    get_features_main cfg =
      String.intercalate " "
        (removeFeatures (unionTokens (reportedTokens cfg) (pySplit cfg.features))
          (pySplit cfg.excluded_features)) := by
  simp [get_features_main, split_features, hf, he]

theorem get_features_of_fetchOk {cfg : ApiConfig} (hok : fetchOk cfg = true) :
    get_features cfg = Except.ok (get_features_main cfg) := by
  unfold fetchOk at hok
  unfold get_features
  cases hu : cfg.use_swift_info with
  | false => simp
  | true =>
    rw [hu] at hok
    simp only [Bool.not_true, Bool.false_or] at hok
    simp only [if_true]
    cases hf : cfg.swift_fetch with
    | ok s => rfl
    | error m => rw [hf] at hok; simp at hok

theorem get_features_fetch_error {cfg : ApiConfig} {m : String}
    (hu : cfg.use_swift_info = true) (hf : cfg.swift_fetch = Except.error m) :
    get_features cfg = Except.error ⟨m⟩ := by
  simp [get_features, hu, hf]

/-- C1 (counterexample): the claim says `excluded_features = ALL_FEATURES`
forces `NO_FEATURES` regardless of the configured `features` value, but
`get_features` checks `features = ALL_FEATURES` first: with both set to
the sentinel it returns `ALL_FEATURES`, and the gate then runs every test
instead of skipping it. -/
theorem c1_counterexample :
    cfgBothAll.excluded_features = cfgBothAll.ALL_FEATURES ∧
    get_features cfgBothAll = Except.ok cfgBothAll.ALL_FEATURES ∧
    cfgBothAll.ALL_FEATURES ≠ cfgBothAll.NO_FEATURES ∧
    required_features cfgBothAll cfgBothAll.ALL_FEATURES ["a"] =
      GateDecision.run := by
  refine ⟨rfl, rfl, ?_, rfl⟩
  decide

/-- C1 (amended): for every configuration in which `excluded_features`
equals the `ALL_FEATURES` sentinel and the configured `features` value
does not (and the optional server fetch succeeds), `get_features` returns
`NO_FEATURES` — regardless of the server-reported features — and the
`required_features` gate then skips every test. -/
theorem c1_excluded_all_skips_everything (cfg : ApiConfig) (reqs : List String)
    (hok : fetchOk cfg = true)
    (he : cfg.excluded_features = cfg.ALL_FEATURES)
    (hf : cfg.features ≠ cfg.ALL_FEATURES)
    (hne : cfg.NO_FEATURES ≠ cfg.ALL_FEATURES) :
    get_features cfg = Except.ok cfg.NO_FEATURES ∧
    required_features cfg cfg.NO_FEATURES reqs =
      GateDecision.skip "skipping all features" := by
  constructor
  · rw [get_features_of_fetchOk hok, get_features_main_excluded_all hf he]
  · unfold required_features
    rw [if_neg hne, if_pos rfl]

/-- C1 witness: the amended claim at the concrete `cfgExcludeAll`. -/
theorem c1_excluded_all_skips_everything_witness :
    fetchOk cfgExcludeAll = true ∧
    (get_features cfgExcludeAll = Except.ok cfgExcludeAll.NO_FEATURES ∧
      required_features cfgExcludeAll cfgExcludeAll.NO_FEATURES ["tempurl"] =
        GateDecision.skip "skipping all features") :=
  ⟨rfl, c1_excluded_all_skips_everything cfgExcludeAll ["tempurl"] rfl rfl
    (by decide) (by decide)⟩

/-- C2 (counterexample): with resolved features `"a"` and required tokens
`["a", "b"]`, the only missing token is `"b"`, but the skip reason lists
every required token (`"requires features: a, b"`), not exactly the
missing ones. -/
theorem c2_counterexample :
    required_features cfgScenario "a" ["a", "b"] =
      GateDecision.skip "requires features: a, b" ∧
    missingTokens (pySplit "a") ["a", "b"] = ["b"] ∧
    GateDecision.skip "requires features: a, b" ≠
      GateDecision.skip
        ("requires features: " ++
          String.intercalate ", " (missingTokens (pySplit "a") ["a", "b"])) := by
  refine ⟨rfl, rfl, ?_⟩
  decide

/-- C2 (amended): when the resolved feature set is neither sentinel and at
least one required token is absent from it, `required_features` returns a
skip decorator whose reason lists all the required tokens, comma-joined
(not only the missing ones). -/
theorem c2_skip_reason_lists_all_required (cfg : ApiConfig)
    (features : String) (required : List String)
    (hA : features ≠ cfg.ALL_FEATURES) (hN : features ≠ cfg.NO_FEATURES)
    (hmiss : ∃ r ∈ required, r ∉ pySplit features) :
    required_features cfg features required =
      GateDecision.skip
        ("requires features: " ++ String.intercalate ", " required) := by
  have hany : required.any (fun req => decide (req ∉ pySplit features)) = true := by
    rcases hmiss with ⟨r, hr, hnot⟩
    simp only [List.any_eq_true]
    exact ⟨r, hr, by simpa using hnot⟩
  unfold required_features
  rw [if_neg hA, if_neg hN, if_pos hany]

/-- C2 witness: the amended claim at resolved features `"a"`, required
tokens `["a", "b"]`. -/
theorem c2_skip_reason_lists_all_required_witness :
    (("a" : String) ≠ cfgScenario.ALL_FEATURES ∧
      ("b" : String) ∉ pySplit "a") ∧
    required_features cfgScenario "a" ["a", "b"] =
      GateDecision.skip ("requires features: " ++ String.intercalate ", " ["a", "b"]) :=
  ⟨⟨by decide, by decide⟩,
    c2_skip_reason_lists_all_required cfgScenario "a" ["a", "b"]
      (by decide) (by decide) ⟨"b", by simp, by decide⟩⟩

/-- C3: if the configured `features` value equals the `ALL_FEATURES`
sentinel, `get_features` returns `ALL_FEATURES` immediately, for every
value of `use_swift_info`, of the server-reported features and of
`excluded_features` (the fetch-success hypothesis quantifies over every
reported value). -/
theorem c3_features_all_short_circuit (cfg : ApiConfig)
    (hok : fetchOk cfg = true) (hf : cfg.features = cfg.ALL_FEATURES) :
    get_features cfg = Except.ok cfg.ALL_FEATURES := by
  rw [get_features_of_fetchOk hok, get_features_main_features_all hf]

/-- C3 witness: the concrete `cfgFeaturesAll`, with server reporting
enabled and a non-trivial exclusion list. -/
theorem c3_features_all_short_circuit_witness :
    fetchOk cfgFeaturesAll = true ∧
    get_features cfgFeaturesAll = Except.ok cfgFeaturesAll.ALL_FEATURES :=
  ⟨rfl, c3_features_all_short_circuit cfgFeaturesAll rfl rfl⟩

/-- C4: when `use_swift_info` is enabled and the fetch of server-reported
features fails with message `msg`, `get_features` raises `SwiftInfoError`
wrapping `msg` — an error, never a silently ignored failure and never a
skip value. -/
theorem c4_fetch_failure_raises (cfg : ApiConfig) (msg : String)
    (hu : cfg.use_swift_info = true)
    (hf : cfg.swift_fetch = Except.error msg) :
    get_features cfg = Except.error ⟨msg⟩ :=
  get_features_fetch_error hu hf

/-- C4 witness: the concrete `cfgFetchFails`, whose fetch fails with
message `"boom"`. -/
theorem c4_fetch_failure_raises_witness :
    cfgFetchFails.swift_fetch = Except.error "boom" ∧
    get_features cfgFetchFails = Except.error ⟨"boom"⟩ :=
  ⟨rfl, c4_fetch_failure_raises cfgFetchFails "boom" rfl rfl⟩

/-- C5: for the configuration with configured features `{"a","b"}`,
server-reported features `{"b","c"}` and excluded features `{"c"}` (no
sentinel involved), `get_features` returns a whitespace-joined string
whose token set is exactly `{"a","b"}` — the union of reported and
configured features minus the excluded ones. -/
theorem c5_scenario_resolved_set :
    ∃ toks : List String,
      get_features cfgScenario = Except.ok (String.intercalate " " toks) ∧
      (∀ t, t ∈ toks ↔ (t = "a" ∨ t = "b")) ∧ toks.Nodup := by
  refine ⟨["a", "b"], rfl, ?_, by decide⟩
  intro t
  simp

/-- C6: in `get_features`, an exclusion token absent from the unioned
feature set is a no-op — the result equals the result for an exclusion
list without that token — and the computation never fails on a missing
token (the only failure source is the server fetch). -/
theorem c6_absent_exclusion_noop (cfg : ApiConfig) (e2 x : String)
    (ex1 ex2 : List String)
    (hA1 : cfg.excluded_features ≠ cfg.ALL_FEATURES)
    (hA2 : e2 ≠ cfg.ALL_FEATURES)
    (h1 : pySplit cfg.excluded_features = ex1 ++ x :: ex2)
    (h2 : pySplit e2 = ex1 ++ ex2)
    (hx : x ∉ unionTokens (reportedTokens cfg) (pySplit cfg.features)) :
    get_features cfg = get_features { cfg with excluded_features := e2 } ∧
    (fetchOk cfg = true → ∃ s, get_features cfg = Except.ok s) := by
  have hmain : get_features_main cfg =
      get_features_main { cfg with excluded_features := e2 } := by
    by_cases hf : cfg.features = cfg.ALL_FEATURES
    · rw [get_features_main_features_all hf,
        @get_features_main_features_all { cfg with excluded_features := e2 } hf]
    · rw [get_features_main_normal hf hA1,
        @get_features_main_normal { cfg with excluded_features := e2 } hf hA2]
      dsimp only
      rw [h1, h2, removeFeatures_not_mem_middle ex1 ex2 hx]
      rfl
  constructor
  · unfold get_features
    dsimp only
    rw [hmain]
  · intro hok
    exact ⟨_, get_features_of_fetchOk hok⟩

/-- C6 witness: excluding `{"c","z"}` (where `"z"` is in no feature list)
gives the same result as excluding only `{"c"}`. -/
theorem c6_absent_exclusion_noop_witness :
    (pySplit cfgExtraExclusion.excluded_features = ["c"] ++ "z" :: [] ∧
      "z" ∉ unionTokens (reportedTokens cfgExtraExclusion)
        (pySplit cfgExtraExclusion.features)) ∧
    get_features cfgExtraExclusion =
      get_features { cfgExtraExclusion with excluded_features := "c" } :=
  ⟨⟨rfl, by decide⟩,
    (c6_absent_exclusion_noop cfgExtraExclusion "c" "z" ["c"] []
      (by decide) (by decide) rfl rfl (by decide)).1⟩

/-- C7: when the resolved feature string equals the `ALL_FEATURES`
sentinel, `required_features` returns the identity decorator for every
list of required tokens — it never skips. -/
theorem c7_resolved_all_never_skips (cfg : ApiConfig) (required : List String) :
    required_features cfg cfg.ALL_FEATURES required = GateDecision.run := by
  unfold required_features
  rw [if_pos rfl]

/-- C8: the memoized `get_features` is stable — a call leaves the cache in
a state from which every further call returns the same value and the same
state (so no recomputation and no further server fetch, the fetch counter
included), and an initial call returns exactly `get_features`. -/
theorem c8_memoized_stable (cfg : ApiConfig) (st : MemoState) :
    get_features_memo cfg (get_features_memo cfg st).2 =
      get_features_memo cfg st ∧
    (get_features_memo cfg ⟨none, 0⟩).1 = get_features cfg := by
  refine ⟨?_, rfl⟩
  cases hc : st.cache with
  | some v => simp [get_features_memo, hc]
  | none => simp [get_features_memo, hc]

/-- C9: the add-then-remove scenario issues an update adding `user_prop`
and then an update removing it (aborting after the first failed
assertion), and its assertions pass exactly when both update responses
have status 200 and `user_prop` is absent from the final entity's
`additional_properties`. -/
theorem c9_add_then_remove_scenario (env : ImagesEnv) (v : String) :
    ((test_update_image_remove_additional_property env v).2 = true ↔
      ((env.update_image env.created_image_id
          (UpdateOp.add [("user_prop", v)])).status_code = 200 ∧
        (env.update_image env.created_image_id
          (UpdateOp.remove [("user_prop", v)])).status_code = 200 ∧
        "user_prop" ∉
          ((env.update_image env.created_image_id
            (UpdateOp.remove [("user_prop", v)])).additional_properties.map
              Prod.fst))) ∧
    (test_update_image_remove_additional_property env v).1 =
      (if (env.update_image env.created_image_id
            (UpdateOp.add [("user_prop", v)])).status_code = 200 then
        [(env.created_image_id, UpdateOp.add [("user_prop", v)]),
          (env.created_image_id, UpdateOp.remove [("user_prop", v)])]
      else [(env.created_image_id, UpdateOp.add [("user_prop", v)])]) := by
  unfold test_update_image_remove_additional_property
  by_cases h1 : (env.update_image env.created_image_id
      (UpdateOp.add [("user_prop", v)])).status_code = 200
  · by_cases h2 : (env.update_image env.created_image_id
        (UpdateOp.remove [("user_prop", v)])).status_code = 200
    · simp [h1, h2]
    · simp [h1, h2]
  · simp [h1]

/-- C10: whenever neither configured value is the `ALL_FEATURES` sentinel
(so `get_features` takes the non-sentinel path; the fetch succeeding), the
returned string is the whitespace-join of a token list with no duplicates
and with no token from the exclusion list. -/
theorem c10_result_nodup_and_exclusion_free (cfg : ApiConfig)
    (hok : fetchOk cfg = true)
    (hf : cfg.features ≠ cfg.ALL_FEATURES)
    (he : cfg.excluded_features ≠ cfg.ALL_FEATURES) :
    ∃ toks : List String,
      get_features cfg = Except.ok (String.intercalate " " toks) ∧
      toks.Nodup ∧
      ∀ t ∈ pySplit cfg.excluded_features, t ∉ toks := by
  refine ⟨removeFeatures (unionTokens (reportedTokens cfg) (pySplit cfg.features))
    (pySplit cfg.excluded_features), ?_, ?_, ?_⟩
  · rw [get_features_of_fetchOk hok, get_features_main_normal hf he]
  · exact nodup_removeFeatures _ (List.nodup_dedup _)
  · intro t ht
    exact not_mem_removeFeatures _ (List.nodup_dedup _) ht

/-- C10 witness: the concrete `cfgScenario`. -/
theorem c10_result_nodup_and_exclusion_free_witness :
    fetchOk cfgScenario = true ∧
    (∃ toks : List String,
      get_features cfgScenario = Except.ok (String.intercalate " " toks) ∧
      toks.Nodup ∧
      ∀ t ∈ pySplit cfgScenario.excluded_features, t ∉ toks) :=
  ⟨rfl, c10_result_nodup_and_exclusion_free cfgScenario rfl
    (by decide) (by decide)⟩

end Cloudroast
